import Mathlib

/-!
Verification of the agent session and provider-abstraction layer of the
`agentx` backend (`src/llm.py`, `src/agent_manager.py`, `src/app.py`),
as a shallow embedding in Lean 4.

Python dictionaries are embedded as association lists with the usual
dict semantics (insert replaces in place, lookup finds the unique entry);
exceptions are embedded as `Except String`; external network calls are
oracles passed in as arguments.
-/

namespace AgentX

/-! ## Generic dictionary helpers (Python `dict` on string keys) -/

/-- Lookup in a string-keyed association list, mirroring `d.get(k)` /
`d[k]` on a Python dict. -/
def dictLookup {α : Type} (d : List (String × α)) (k : String) : Option α :=
  match d with
  | [] => none
  | p :: t => if p.1 == k then some p.2 else dictLookup t k

/-- `d[k] = v` on a Python dict: replace the entry in place if the key is
present, append otherwise. -/
def dictInsert {α : Type} (d : List (String × α)) (k : String) (v : α) :
    List (String × α) :=
  match d with
  | [] => [(k, v)]
  | p :: t => if p.1 == k then (k, v) :: t else p :: dictInsert t k v

/-- `del d[k]` (tolerant): drop every entry with key `k`. -/
def dictErase {α : Type} (d : List (String × α)) (k : String) :
    List (String × α) :=
  d.filter (fun p => p.1 != k)

/-! ## Messages and role mapping (`src/llm.py`) -/

/-- A chat message, `Dict[str, str]` with keys `role` and `content` in the
source. -/
structure Message where
  role : String
  content : String
deriving DecidableEq, Repr

/-- The `role_mapping` dict of `OpenAIProvider._map_role_to_openai`
(`src/llm.py:61-67`); `none` models a key absent from the dict. -/
def role_mapping : String → Option String
  | "human" => some "user"
  | "assistant" => some "assistant"
  | "system" => some "system"
  | "tool" => some "assistant"
  | "tool-response" => some "assistant"
  | _ => none

/-- `OpenAIProvider._map_role_to_openai` (`src/llm.py:59-77`):
`role_mapping.get(role, role)` with the content copied over. -/
def map_role_to_openai (msg : Message) : Message :=
  { role := (role_mapping msg.role).getD msg.role, content := msg.content }

/-- The per-message fragment of
`AnthropicProvider._convert_messages_to_prompt` (`src/llm.py:239-257`) and
the textually identical `OllamaProvider._convert_messages_to_prompt`
(`src/llm.py:367-385`): a role outside the handled set contributes
nothing to the prompt. -/
def convert_message_fragment (msg : Message) : String :=
  if msg.role = "system" then "System: " ++ msg.content ++ "\n\n"
  else if msg.role = "user" then "Human: " ++ msg.content ++ "\n\n"
  else if msg.role = "assistant" then "Assistant: " ++ msg.content ++ "\n\n"
  else if msg.role = "function" ∨ msg.role = "tool-response" then
    "Tool Response: " ++ msg.content ++ "\n\n"
  else if msg.role = "tool" then "Tool Call: " ++ msg.content ++ "\n\n"
  else ""

/-- Python `str.strip()` on a character list: drop leading and trailing
whitespace. -/
def stripChars (l : List Char) : List Char :=
  ((l.dropWhile Char.isWhitespace).reverse.dropWhile Char.isWhitespace).reverse

/-- Python `str.strip()`. -/
def pyStrip (s : String) : String :=
  String.mk (stripChars s.data)

/-- `_convert_messages_to_prompt` (Anthropic and Ollama variants):
concatenate the fragments, then `.strip()`. -/
def convert_messages_to_prompt (messages : List Message) : String :=
  pyStrip (String.join (messages.map convert_message_fragment))

/-- Substring occurrence on character lists. -/
def occursChars (pat : List Char) : List Char → Bool
  | [] => pat.isEmpty
  | c :: rest => pat.isPrefixOf (c :: rest) || occursChars pat rest

/-- `pat in s` on Python strings: `pat` occurs as a substring of `s`. -/
def occursIn (pat s : String) : Bool :=
  occursChars pat.data s.data

/-- `OpenAIProvider._handle_api_error` (`src/llm.py:79-89`). -/
def handle_api_error (error : String) : String :=
  if occursIn "invalid_request_error" error.toLower then
    "I encountered an issue with the request format. Let me try a different approach."
  else if occursIn "rate_limit_error" error.toLower then
    "I'm receiving too many requests at the moment. Please try again in a moment."
  else
    "I encountered an error: " ++ error ++ ". Let me try a different approach."

/-- `OpenAIProvider.__call__` (`src/llm.py:107-113`): maps the roles, makes
the API call (the oracle `backend`, standing for
`self.client.chat.completions.create`), and converts any raised exception
into the `_handle_api_error` string. -/
def openAICall (backend : List Message → Except String String)
    (messages : List Message) : String :=
  match backend (messages.map map_role_to_openai) with
  | Except.ok content => content
  | Except.error e => handle_api_error e

/-- `AnthropicProvider.__call__` (`src/llm.py:188-199`): converts the
messages to a prompt and calls `self.client.messages.create` (the oracle
`backend`) with no exception handler — a raised exception propagates. -/
def anthropicCall (backend : String → Except String String)
    (messages : List Message) : Except String String :=
  backend (convert_messages_to_prompt messages)

/-- `OllamaProvider.__call__` (`src/llm.py:272-290`): converts the messages
to a prompt and posts to the Ollama API (the oracle `backend`, whose error
case covers both a transport failure and `raise_for_status`) with no
exception handler. -/
def ollamaCall (backend : String → Except String String)
    (messages : List Message) : Except String String :=
  backend (convert_messages_to_prompt messages)

/-- `DeepSeekProvider.__call__` (`src/llm.py:403-416`): posts the messages
unchanged to the DeepSeek API (the oracle `backend`) with no exception
handler. -/
def deepSeekCall (backend : List Message → Except String String)
    (messages : List Message) : Except String String :=
  backend messages

/-! ## AgentManager (`src/agent_manager.py`) -/

/-- A smolagents `Tool` as the registry sees it: a name, a description
and an opaque payload standing for the rest of the tool object
(inputs schema, output type, `forward`). -/
structure Tool where
  name : String
  description : String
deriving DecidableEq, Repr

/-- The six default tools built in `AgentManager.__init__`
(`src/agent_manager.py:40-47`), with the `name` attributes from
`src/tools/base_tools.py`. -/
def default_tools : List Tool :=
  [⟨"web_search", "Search the web using DuckDuckGo"⟩,
   ⟨"web_scrape", "Scrape content from a webpage"⟩,
   ⟨"system_command", "Execute a system command"⟩,
   ⟨"file_system", "Perform file system operations"⟩,
   ⟨"twitter_search", "Search recent tweets"⟩,
   ⟨"system_info", "Get system information"⟩]

/-- The smolagents `CodeAgent` as `_initialize_agent` constructs it
(`src/agent_manager.py:64-73`): a snapshot of the configuration it was
built from. `P` is the provider type. -/
structure CodeAgent (P : Type) where
  tools : List Tool
  model : P
  max_steps : Nat
  verbose : Bool
  additional_authorized_imports : List String
deriving DecidableEq, Repr

/-- `AgentManager`'s fields (`src/agent_manager.py:27-62`). The
`authorized_imports` set is embedded as a duplicate-free list. -/
structure AgentManager (P : Type) where
  llm_provider : P
  max_steps : Nat
  verbose : Bool
  tools : List Tool
  authorized_imports : List String
  agent : CodeAgent P
deriving DecidableEq, Repr

/-- `set.update(new)` on the imports set: keep the base, add the members
not already present. -/
def importsUnion (base new : List String) : List String :=
  base ++ new.filter (fun s => !(base.contains s))

/-- `AgentManager._initialize_agent` (`src/agent_manager.py:64-73`):
rebuild the `CodeAgent` from the manager's current fields. -/
def initialize_agent {P : Type} (m : AgentManager P) : CodeAgent P :=
  { tools := m.tools
    model := m.llm_provider
    max_steps := m.max_steps
    verbose := m.verbose
    additional_authorized_imports := m.authorized_imports }

/-- The base `authorized_imports` set of `AgentManager.__init__`
(`src/agent_manager.py:54-57`). -/
def base_imports : List String :=
  ["os", "sys", "json", "time", "datetime", "math",
   "random", "requests", "numpy", "pandas"]

/-- `AgentManager.__init__` (`src/agent_manager.py:27-62`): default tools
plus additional ones, base imports united with additional ones, and the
agent initialized from those fields. -/
def mkAgentManager {P : Type} (llm_provider : P) (max_steps : Nat := 10)
    (verbose : Bool := false) (additional_tools : List Tool := [])
    (additional_imports : List String := []) : AgentManager P :=
  let tools := default_tools ++ additional_tools
  let imports := importsUnion base_imports additional_imports
  { llm_provider := llm_provider
    max_steps := max_steps
    verbose := verbose
    tools := tools
    authorized_imports := imports
    agent :=
      { tools := tools
        model := llm_provider
        max_steps := max_steps
        verbose := verbose
        additional_authorized_imports := imports } }

/-- `AgentManager.add_tool` (`src/agent_manager.py:75-78`):
`self.tools.append(tool)` — an unconditional append — then
`self.agent = self._initialize_agent()`. -/
def AgentManager.add_tool {P : Type} (m : AgentManager P) (tool : Tool) :
    AgentManager P :=
  let m2 := { m with tools := m.tools ++ [tool] }
  { m2 with agent := initialize_agent m2 }

/-- `AgentManager.remove_tool` (`src/agent_manager.py:80-83`):
`self.tools = [t for t in self.tools if t.name != tool_name]`, then
rebuild the agent. -/
def AgentManager.remove_tool {P : Type} (m : AgentManager P)
    (tool_name : String) : AgentManager P :=
  let m2 := { m with tools := m.tools.filter (fun t => t.name ≠ tool_name) }
  { m2 with agent := initialize_agent m2 }

/-- The direct field assignment `agent_manager.llm_provider = llm_provider`
performed by the chat endpoint (`src/app.py:190`). -/
def set_llm_provider {P : Type} (m : AgentManager P) (p : P) :
    AgentManager P :=
  { m with llm_provider := p }

/-- `AgentManager.update_configuration` (`src/agent_manager.py:113-129`).
Python truthiness: a provider object is truthy, `max_steps`/`verbose` are
compared against `None`, an empty import list is falsy and skipped. -/
def AgentManager.update_configuration {P : Type} (m : AgentManager P)
    (llm_provider : Option P) (max_steps : Option Nat) (verbose : Option Bool)
    (additional_imports : Option (List String)) : AgentManager P :=
  let m1 := match llm_provider with
    | some p => { m with llm_provider := p }
    | none => m
  let m2 := match max_steps with
    | some n => { m1 with max_steps := n }
    | none => m1
  let m3 := match verbose with
    | some v => { m2 with verbose := v }
    | none => m2
  let m4 := match additional_imports with
    | some imps =>
        if imps.isEmpty then m3
        else { m3 with authorized_imports := importsUnion m3.authorized_imports imps }
    | none => m3
  { m4 with agent := initialize_agent m4 }

/-- The outcome of a Python call: a normal return or a raised exception
carrying its message. -/
inductive PyResult (α : Type) where
  | ok (a : α)
  | exn (msg : String)
deriving DecidableEq, Repr

/-- What `AgentManager.process_request` returns
(`src/agent_manager.py:94-111`): either whatever `self.agent.run`
returned, or the structured dict `{'error': True, 'message': ...}`. -/
inductive ProcessResult (α : Type) where
  | result (a : α)
  | errorDict (message : String)
deriving DecidableEq, Repr

/-- `AgentManager.process_request` (`src/agent_manager.py:94-111`): run
the agent (the oracle `run`, applied to the manager's `agent` snapshot)
and catch every exception into the structured error dict. -/
def AgentManager.process_request {P α : Type} (m : AgentManager P)
    (run : CodeAgent P → PyResult α) : ProcessResult α :=
  match run m.agent with
  | PyResult.ok a => ProcessResult.result a
  | PyResult.exn e =>
      ProcessResult.errorDict ("Error processing request: " ++ e)

/-! ## Provider construction and cancellation (`src/app.py`, `src/llm.py`) -/

/-- The concrete provider objects the chat endpoint constructs
(`src/app.py:178-187`). -/
inductive Provider where
  | openai (model_name : String)
  | anthropic (model_name : String)
  | ollama (model_name : String)
  | deepseek (model_name : String)
deriving DecidableEq, Repr

/-- Presence of the API keys the provider constructors read from the
environment (`src/llm.py:46-48`, `176-178`, `391-393`). -/
structure Env where
  openai_key : Bool
  anthropic_key : Bool
  deepseek_key : Bool
deriving DecidableEq, Repr

/-- The provider dispatch of the chat endpoint (`src/app.py:178-187`)
combined with the constructor bodies (`src/llm.py`): Ollama's constructor
never raises, the other three raise `ValueError` when their API key is
missing, and an unknown provider name raises
`ValueError(f"Unsupported provider: {provider}")`. -/
def createProvider (env : Env) (provider model : String) :
    Except String Provider :=
  if provider = "ollama" then Except.ok (Provider.ollama model)
  else if provider = "openai" then
    if env.openai_key then Except.ok (Provider.openai model)
    else Except.error "OpenAI API key not provided"
  else if provider = "anthropic" then
    if env.anthropic_key then Except.ok (Provider.anthropic model)
    else Except.error "Anthropic API key not provided"
  else if provider = "deepseek" then
    if env.deepseek_key then Except.ok (Provider.deepseek model)
    else Except.error "DeepSeek API key not provided"
  else Except.error ("Unsupported provider: " ++ provider)

/-- The `_current_request` slot of a provider adapter together with the
set of transport handles that have been `close()`d; handles are opaque
numbers. -/
structure ProviderState where
  current_request : Option Nat
  closed : List Nat
deriving DecidableEq, Repr

/-- `cancel_request` as implemented identically by all four providers
(`src/llm.py:53-57`, `183-186`, `267-270`, `398-401`): if
`self._current_request` is attached, close it and clear the slot;
otherwise do nothing. -/
def cancel_request (ps : ProviderState) : ProviderState :=
  match ps.current_request with
  | some h => { current_request := none, closed := ps.closed ++ [h] }
  | none => ps

/-- The HTTP-level responses the endpoints return:
`{"status": "success"}` or `{"status": "error", "message": ...}`. -/
inductive ChatResponse where
  | success
  | error (message : String)
deriving DecidableEq, Repr

/-- `cancel_chat` (`src/app.py:101-109`): if the session's Active Request
Marker is non-empty, cancel the session's provider adapter (when the
session exists — `chat_sessions.get` and the `llm_provider` truthiness
check, folded into `session_exists`) and clear the marker; always answer
`{"status": "success"}`. -/
def cancel_chat (requests : List (String × Option Provider))
    (session_exists : Bool) (adapter : ProviderState) (sid : String) :
    List (String × Option Provider) × ProviderState × ChatResponse :=
  match dictLookup requests sid with
  | some (some _) =>
      let adapter2 := if session_exists then cancel_request adapter else adapter
      (dictInsert requests sid none, adapter2, ChatResponse.success)
  | _ => (requests, adapter, ChatResponse.success)

/-! ## WebSocket binding and delivery (`src/app.py:49-92`) -/

/-- The `active_connections` dict (session id → websocket transport,
transports as opaque numbers) together with the transports that have been
`close()`d. -/
structure WsState where
  active_connections : List (String × Nat)
  closed : List Nat
deriving DecidableEq, Repr

/-- The binding part of `websocket_endpoint` (`src/app.py:66-79`): close
any transport already bound to the session id, then store the new one. -/
def websocket_bind (st : WsState) (session_id : String) (ws : Nat) :
    WsState :=
  let closed := match dictLookup st.active_connections session_id with
    | some old => st.closed ++ [old]
    | none => st.closed
  { active_connections := dictInsert st.active_connections session_id ws
    closed := closed }

/-- The transport `broadcast_message` (`src/app.py:49-56`) writes to: the
one currently bound to the session id, if any (if none is bound the event
is silently dropped). -/
def broadcast_target (st : WsState) (session_id : String) : Option Nat :=
  dictLookup st.active_connections session_id

/-! ## The chat endpoint (`src/app.py:155-271`)

The endpoint is embedded as a pure function over the module-level state it
touches.  External nondeterminism is passed in: `env` (API keys), `run`
(what `agent_manager.process_request(message, stream=True)` evaluates to,
including an exception raised while iterating the returned generator), and
the two generated UUIDs `mid` and `emid`.  WebSocket writes are assumed to
succeed (`broadcast_message` swallows write failures, so it never raises
into the endpoint). -/

/-- An event pushed over the Delivery Channel:
`{"type": "thinking", ...}` or `{"type": "message", "content": {...}}`.
`is_streaming` is `none` when the key is absent from the payload. -/
inductive Event where
  | thinking (value : Bool)
  | message (id role content : String) (is_streaming : Option Bool)
deriving DecidableEq, Repr

/-- One element yielded by the response iterable in the streaming loop
(`src/app.py:216-217`): a string chunk, or any non-string step object
(skipped by the `isinstance(chunk, str)` guard). -/
inductive Chunk where
  | str (s : String)
  | nonstr
deriving DecidableEq, Repr

/-- What `agent_manager.process_request(message, stream=True)` evaluates
to, as the endpoint's `hasattr(response, '__iter__')` test sees it: a
non-string iterable yielding `chunks` and then possibly raising `err`
(exceptions inside `agent.run`'s generator surface during iteration), or a
non-iterable value whose `str()` is `answer`. -/
inductive RunResult where
  | stream (chunks : List Chunk) (err : Option String)
  | plain (answer : String)
deriving DecidableEq, Repr

/-- The module-level dicts of `src/app.py` that the chat endpoint reads
and writes (`chat_sessions` reduced to its key set; `active_connections`
values reduced to the transport handle). -/
structure ChatState where
  chat_sessions : List String
  active_connections : List (String × Nat)
  active_requests : List (String × Option Provider)
deriving DecidableEq, Repr

/-- What one execution of the chat endpoint produces: the final state, the
HTTP response, the events broadcast in order, and the trace of assignments
made to `active_requests[session_id]` in order. -/
structure ChatOut where
  state : ChatState
  response : ChatResponse
  events : List Event
  markerWrites : List (Option Provider)
deriving DecidableEq, Repr

/-- The streaming loop body (`src/app.py:215-227`): fold the chunks,
accumulating `full_response` and emitting one cumulative
`is_streaming: true` event per string chunk. -/
def streamFold (mid : String) (chunks : List Chunk) : List Event × String :=
  chunks.foldl
    (fun acc c =>
      match c with
      | Chunk.str s =>
          let fr := acc.2 ++ s
          (acc.1 ++ [Event.message ("assistant-" ++ mid) "assistant" fr (some true)], fr)
      | Chunk.nonstr => acc)
    ([], "")

/-- The part of the chat endpoint from the marker set (`src/app.py:206`)
onward, reached once validation passed and the provider `p` was
constructed: the response loop (`src/app.py:208-250`), the `finally`
clearing the marker and resetting the thinking state
(`src/app.py:251-255`), and — when iterating the response raised — the
outer handler clearing the marker again and emitting the structured error
event (`src/app.py:258-271`). -/
def chatOk (st : ChatState) (sid : String) (p : Provider)
    (userMessage : String) (run : RunResult) (mid emid : String) : ChatOut :=
  let ev0 : List Event :=
    [Event.thinking true,
     Event.message ("user-" ++ mid) "user" userMessage none]
  let st1 := { st with
    active_requests := dictInsert st.active_requests sid (some p) }
  let sevsErr : List Event × Option String :=
    match run with
    | RunResult.stream chunks err =>
        let fold := streamFold mid chunks
        match err with
        | some e => (fold.1, some e)
        | none =>
            if fold.2 = "" then (fold.1, none)
            else (fold.1 ++
              [Event.message ("assistant-" ++ mid) "assistant" fold.2 (some false)],
              none)
    | RunResult.plain answer =>
        ([Event.message ("assistant-" ++ mid) "assistant" answer (some false)],
         none)
  let st2 := { st1 with
    active_requests := dictInsert st1.active_requests sid none }
  match sevsErr.2 with
  | none =>
      ⟨st2, ChatResponse.success,
       ev0 ++ sevsErr.1 ++ [Event.thinking false],
       [some p, none]⟩
  | some e =>
      ⟨{ st2 with
          active_requests := dictInsert st2.active_requests sid none },
       ChatResponse.error e,
       ev0 ++ sevsErr.1 ++
         [Event.thinking false, Event.thinking false,
          Event.message ("error-" ++ emid) "assistant" ("Error: " ++ e) none],
       [some p, none, none]⟩

/-- The `chat` endpoint (`src/app.py:155-271`), faithful to its control
flow: validation early-returns (`src/app.py:159-175`); provider
construction, whose raise lands in the outer handler which clears the
marker and emits the error event (`src/app.py:178-187`, `258-271`); then
the post-validation body `chatOk`. -/
def chat (st : ChatState) (env : Env) (session_id : Option String)
    (provider : Option String) (model : Option String) (userMessage : String)
    (run : RunResult) (mid emid : String) : ChatOut :=
  match session_id with
  | none => ⟨st, ChatResponse.error "Invalid session ID", [], []⟩
  | some sid =>
    if sid = "" ∨ sid ∉ st.chat_sessions then
      ⟨st, ChatResponse.error "Invalid session ID", [], []⟩
    else if (dictLookup st.active_connections sid).isNone then
      ⟨st, ChatResponse.error "No active WebSocket connection", [], []⟩
    else
      match provider, model with
      | some prov, some mdl =>
        if prov = "" ∨ mdl = "" then
          ⟨st, ChatResponse.error "Provider and model must be selected", [], []⟩
        else
          match createProvider env prov mdl with
          | Except.error e =>
              ⟨{ st with active_requests := dictInsert st.active_requests sid none },
               ChatResponse.error e,
               [Event.thinking false,
                Event.message ("error-" ++ emid) "assistant" ("Error: " ++ e) none],
               [none]⟩
          | Except.ok p => chatOk st sid p userMessage run mid emid
      | _, _ => ⟨st, ChatResponse.error "Provider and model must be selected", [], []⟩

/-- The assistant-role message events among a broadcast trace — what the
client renders as the assistant's answer. -/
def assistantEvents (evs : List Event) : List Event :=
  evs.filter (fun e =>
    match e with
    | Event.message _ role _ _ => role == "assistant"
    | _ => false)

/-! ## Dictionary lemmas -/

/-- After a dict assignment, looking the key up yields the new value. -/
theorem dictLookup_dictInsert_self {α : Type} (d : List (String × α))
    (k : String) (v : α) : dictLookup (dictInsert d k v) k = some v := by
  induction d with
  | nil => simp [dictInsert, dictLookup]
  | cons p t ih =>
    by_cases h : p.1 = k
    · simp [dictInsert, dictLookup, h]
    · simp [dictInsert, dictLookup, h, ih]

/-- The key set of a dict grows by at most the assigned key. -/
theorem mem_keys_dictInsert {α : Type} (d : List (String × α))
    (k x : String) (v : α)
    (hx : x ∈ (dictInsert d k v).map Prod.fst) :
    x = k ∨ x ∈ d.map Prod.fst := by
  induction d with
  | nil =>
    simp only [dictInsert, List.map_cons, List.map_nil,
      List.mem_singleton] at hx
    exact Or.inl hx
  | cons p t ih =>
    simp only [dictInsert] at hx
    by_cases h : p.1 = k
    · rw [if_pos (by simp [h])] at hx
      simp only [List.map_cons, List.mem_cons] at hx
      rcases hx with hx | hx
      · exact Or.inl hx
      · exact Or.inr (by
          simp only [List.map_cons, List.mem_cons]
          exact Or.inr hx)
    · rw [if_neg (by simp [h])] at hx
      simp only [List.map_cons, List.mem_cons] at hx
      rcases hx with hx | hx
      · exact Or.inr (by
          simp only [List.map_cons, List.mem_cons]
          exact Or.inl hx)
      · rcases ih hx with h1 | h1
        · exact Or.inl h1
        · exact Or.inr (by
            simp only [List.map_cons, List.mem_cons]
            exact Or.inr h1)

/-- No two entries share a key. -/
def keysNodup {α : Type} (d : List (String × α)) : Prop :=
  (d.map Prod.fst).Nodup

/-- Dict assignment preserves key uniqueness. -/
theorem keysNodup_dictInsert {α : Type} (d : List (String × α))
    (k : String) (v : α) (h : keysNodup d) :
    keysNodup (dictInsert d k v) := by
  induction d with
  | nil => simp [dictInsert, keysNodup]
  | cons p t ih =>
    unfold keysNodup at h ⊢
    simp only [List.map_cons, List.nodup_cons] at h
    obtain ⟨hp, ht⟩ := h
    simp only [dictInsert]
    by_cases hk : p.1 = k
    · rw [if_pos (by simp [hk])]
      simp only [List.map_cons, List.nodup_cons]
      exact ⟨by rw [← hk]; exact hp, ht⟩
    · rw [if_neg (by simp [hk])]
      simp only [List.map_cons, List.nodup_cons]
      refine ⟨fun hx => ?_, ih ht⟩
      rcases mem_keys_dictInsert t k p.1 v hx with h1 | h1
      · exact hk h1
      · exact hp h1

/-! ## Claim C2: tool registry add/remove -/

/-- C2 counterexample: re-adding an already-present tool name duplicates
the entry instead of replacing it — after `add_tool` of a second
`web_search` tool, the registry holds two entries named `web_search`. -/
theorem add_tool_duplicate_cex :
    ((mkAgentManager (0 : Nat)).add_tool ⟨"web_search", "d"⟩).tools.countP
      (fun x => x.name == "web_search") = 2 := by decide

/-- C2 (amended): `add_tool` appends unconditionally, so adding a tool
whose name is already present yields two registry entries with that name;
`remove_tool` of an absent name leaves the tool list unchanged and raises
no error. -/
theorem add_tool_appends_remove_tool_noop {P : Type} (m : AgentManager P)
    (t : Tool) (name : String)
    (hpresent : ∃ t2 ∈ m.tools, t2.name = t.name)
    (habsent : ∀ t2 ∈ m.tools, t2.name ≠ name) :
    ((m.add_tool t).tools = m.tools ++ [t])
    ∧ (1 < (m.add_tool t).tools.countP (fun x => x.name == t.name))
    ∧ ((m.remove_tool name).tools = m.tools) := by
  refine ⟨rfl, ?_, ?_⟩
  · have h1 : 0 < m.tools.countP (fun x => x.name == t.name) := by
      rw [List.countP_pos_iff]
      obtain ⟨t2, ht2, hn⟩ := hpresent
      exact ⟨t2, ht2, by simp [hn]⟩
    have h2 : (m.add_tool t).tools.countP (fun x => x.name == t.name) =
        m.tools.countP (fun x => x.name == t.name) + 1 := by
      show (m.tools ++ [t]).countP _ = _
      rw [List.countP_append]
      simp
    omega
  · show m.tools.filter (fun x => decide (x.name ≠ name)) = m.tools
    rw [List.filter_eq_self]
    intro a ha
    simpa using habsent a ha

/-- C2 witness. -/
theorem add_tool_appends_remove_tool_noop_witness :
    ((mkAgentManager (0 : Nat)).add_tool ⟨"web_search", "d"⟩).tools =
        (mkAgentManager (0 : Nat)).tools ++ [⟨"web_search", "d"⟩]
    ∧ 1 < ((mkAgentManager (0 : Nat)).add_tool ⟨"web_search", "d"⟩).tools.countP
        (fun x => x.name == "web_search")
    ∧ ((mkAgentManager (0 : Nat)).remove_tool "no_such_tool").tools =
        (mkAgentManager (0 : Nat)).tools :=
  add_tool_appends_remove_tool_noop (mkAgentManager (0 : Nat))
    ⟨"web_search", "d"⟩ "no_such_tool"
    ⟨⟨"web_search", "Search the web using DuckDuckGo"⟩, by decide, by decide⟩
    (by decide)

/-! ## Claim C3: adapter error handling in `__call__` -/

/-- C3 counterexample: a transport error raised inside
`AnthropicProvider.__call__` is not caught at the adapter boundary — it
propagates out of the adapter unchanged instead of being converted to an
explanatory string. -/
theorem anthropic_call_error_propagates_cex :
    anthropicCall (fun _ => Except.error "connection error") [] =
      Except.error "connection error" := rfl

/-- C3 (amended): only `OpenAIProvider.__call__` catches a backend error
and converts it to the `_handle_api_error` explanatory string; the
Anthropic, Ollama and DeepSeek `__call__` implementations propagate the
raised error unchanged. -/
theorem invoke_error_handling (e : String) (msgs : List Message) :
    (openAICall (fun _ => Except.error e) msgs = handle_api_error e)
    ∧ (anthropicCall (fun _ => Except.error e) msgs = Except.error e)
    ∧ (ollamaCall (fun _ => Except.error e) msgs = Except.error e)
    ∧ (deepSeekCall (fun _ => Except.error e) msgs = Except.error e) :=
  ⟨rfl, rfl, rfl, rfl⟩

/-! ## Claim C4: role mapping -/

/-- C4 counterexample: a message whose role is outside the handled set is
dropped entirely by the Anthropic/Ollama message conversion — its content
does not occur in the produced prompt, contradicting "no loss of
content". -/
theorem unknown_role_content_dropped_cex :
    convert_messages_to_prompt [⟨"refusal", "the content"⟩] = ""
    ∧ occursIn "the content"
        (convert_messages_to_prompt [⟨"refusal", "the content"⟩]) = false := by
  constructor <;> decide

/-- C4 (amended): every adapter's role mapping is a deterministic pure
function, total over the five-role set with the message content preserved
there; OpenAI's mapping passes an unknown role through unchanged with its
content, but the Anthropic/Ollama conversion drops a message whose role is
outside its handled set, losing its content. -/
theorem role_mapping_behavior (r c : String)
    (hr : role_mapping r = none)
    (hr6 : r ∉ (["system", "user", "assistant", "function", "tool",
      "tool-response"] : List String)) :
    (map_role_to_openai ⟨r, c⟩ = ⟨r, c⟩)
    ∧ (∀ msg : Message, (map_role_to_openai msg).content = msg.content)
    ∧ (map_role_to_openai ⟨"system", c⟩ = ⟨"system", c⟩)
    ∧ (map_role_to_openai ⟨"user", c⟩ = ⟨"user", c⟩)
    ∧ (map_role_to_openai ⟨"assistant", c⟩ = ⟨"assistant", c⟩)
    ∧ (map_role_to_openai ⟨"tool", c⟩ = ⟨"assistant", c⟩)
    ∧ (map_role_to_openai ⟨"tool-response", c⟩ = ⟨"assistant", c⟩)
    ∧ (convert_message_fragment ⟨"system", c⟩ = "System: " ++ c ++ "\n\n")
    ∧ (convert_message_fragment ⟨"user", c⟩ = "Human: " ++ c ++ "\n\n")
    ∧ (convert_message_fragment ⟨"assistant", c⟩ = "Assistant: " ++ c ++ "\n\n")
    ∧ (convert_message_fragment ⟨"tool", c⟩ = "Tool Call: " ++ c ++ "\n\n")
    ∧ (convert_message_fragment ⟨"tool-response", c⟩ =
        "Tool Response: " ++ c ++ "\n\n")
    ∧ (convert_message_fragment ⟨r, c⟩ = "") := by
  simp only [List.mem_cons, List.not_mem_nil, or_false, not_or] at hr6
  obtain ⟨h1, h2, h3, h4, h5, h6⟩ := hr6
  refine ⟨by simp [map_role_to_openai, hr], fun msg => rfl, rfl, rfl, rfl, rfl,
    rfl, rfl, rfl, rfl, rfl, rfl, ?_⟩
  simp [convert_message_fragment, h1, h2, h3, h4, h5, h6]

/-- C4 witness. -/
theorem role_mapping_behavior_witness :
    (map_role_to_openai ⟨"refusal", "x"⟩ = ⟨"refusal", "x"⟩)
    ∧ (∀ msg : Message, (map_role_to_openai msg).content = msg.content)
    ∧ (map_role_to_openai ⟨"system", "x"⟩ = ⟨"system", "x"⟩)
    ∧ (map_role_to_openai ⟨"user", "x"⟩ = ⟨"user", "x"⟩)
    ∧ (map_role_to_openai ⟨"assistant", "x"⟩ = ⟨"assistant", "x"⟩)
    ∧ (map_role_to_openai ⟨"tool", "x"⟩ = ⟨"assistant", "x"⟩)
    ∧ (map_role_to_openai ⟨"tool-response", "x"⟩ = ⟨"assistant", "x"⟩)
    ∧ (convert_message_fragment ⟨"system", "x"⟩ = "System: " ++ "x" ++ "\n\n")
    ∧ (convert_message_fragment ⟨"user", "x"⟩ = "Human: " ++ "x" ++ "\n\n")
    ∧ (convert_message_fragment ⟨"assistant", "x"⟩ =
        "Assistant: " ++ "x" ++ "\n\n")
    ∧ (convert_message_fragment ⟨"tool", "x"⟩ = "Tool Call: " ++ "x" ++ "\n\n")
    ∧ (convert_message_fragment ⟨"tool-response", "x"⟩ =
        "Tool Response: " ++ "x" ++ "\n\n")
    ∧ (convert_message_fragment ⟨"refusal", "x"⟩ = "") :=
  role_mapping_behavior "refusal" "x" rfl (by decide)

/-! ## Claim C10: provider assignment is framed -/

/-- C10: assigning a new provider directly to `llm_provider` (as the chat
endpoint does per request) changes no other field — in particular the
already-built agent, which `process_request` drives, still holds the
previously installed provider — while `__init__`, `add_tool`,
`remove_tool` and `update_configuration` are exactly the operations that
rebuild the agent from the current fields. -/
theorem set_llm_provider_frame {P α : Type} (m : AgentManager P) (p : P)
    (t : Tool) (name : String) (lp : Option P) (ms : Option Nat)
    (vb : Option Bool) (ai : Option (List String))
    (run : CodeAgent P → PyResult α) :
    ((set_llm_provider m p).agent = m.agent)
    ∧ ((set_llm_provider m p).llm_provider = p)
    ∧ ((set_llm_provider m p).tools = m.tools)
    ∧ ((set_llm_provider m p).max_steps = m.max_steps)
    ∧ ((set_llm_provider m p).verbose = m.verbose)
    ∧ ((set_llm_provider m p).authorized_imports = m.authorized_imports)
    ∧ ((set_llm_provider m p).process_request run = m.process_request run)
    ∧ ((set_llm_provider m p).agent.model = m.agent.model)
    ∧ ((mkAgentManager p).agent = initialize_agent (mkAgentManager p))
    ∧ ((m.add_tool t).agent = initialize_agent (m.add_tool t))
    ∧ ((m.remove_tool name).agent = initialize_agent (m.remove_tool name))
    ∧ ((m.update_configuration lp ms vb ai).agent =
        initialize_agent (m.update_configuration lp ms vb ai)) :=
  ⟨rfl, rfl, rfl, rfl, rfl, rfl, rfl, rfl, rfl, rfl, rfl, rfl⟩

/-! ## Shared lemmas about the chat endpoint -/

/-- Once validation passed and the provider was constructed, `chat`
reduces to its post-validation body. -/
theorem chat_happy (st : ChatState) (env : Env)
    (sid prov mdl msgText : String) (run : RunResult) (mid emid : String)
    (p : Provider)
    (hsid : ¬(sid = "" ∨ sid ∉ st.chat_sessions))
    (hconn : (dictLookup st.active_connections sid).isSome)
    (hpm : ¬(prov = "" ∨ mdl = ""))
    (hp : createProvider env prov mdl = Except.ok p) :
    chat st env (some sid) (some prov) (some mdl) msgText run mid emid =
      chatOk st sid p msgText run mid emid := by
  obtain ⟨x, hx⟩ := Option.isSome_iff_exists.mp hconn
  simp [chat, hsid, hpm, hp, hx]

/-- The post-validation body always ends with the marker cleared, after
first writing the constructed provider to it and writing only `None`
afterwards. -/
theorem chatOk_marker (st : ChatState) (sid : String) (p : Provider)
    (msgText : String) (run : RunResult) (mid emid : String) :
    dictLookup (chatOk st sid p msgText run mid
        emid).state.active_requests sid = some none
    ∧ (chatOk st sid p msgText run mid emid).markerWrites.head? =
        some (some p)
    ∧ ∀ w ∈ (chatOk st sid p msgText run mid emid).markerWrites.tail,
        w = none := by
  cases run with
  | stream chunks err =>
    cases err with
    | none =>
      by_cases hf : (streamFold mid chunks).2 = ""
      · simp [chatOk, hf, dictLookup_dictInsert_self]
      · simp [chatOk, hf, dictLookup_dictInsert_self]
    | some e => simp [chatOk, dictLookup_dictInsert_self]
  | plain a => simp [chatOk, dictLookup_dictInsert_self]

/-- The session's Active Request Marker is empty: the key is absent or
holds `None`. -/
def markerEmpty (st : ChatState) (sid : String) : Prop :=
  dictLookup st.active_requests sid = none ∨
  dictLookup st.active_requests sid = some none

/-! ## Claim C5: marker set before the call, cleared unconditionally -/

/-- C5: an execution of the chat endpoint entered with the session's
marker empty leaves it empty; and every execution that reaches the
agent-loop call first writes the constructed provider handle to the
marker, writes only `None` afterwards (the `finally`, and the outer
handler on failure), and returns with the marker holding `None`. -/
theorem chat_marker_set_and_cleared (st : ChatState) (env : Env)
    (sid : String) (provider model : Option String) (msgText : String)
    (run : RunResult) (mid emid : String)
    (hempty : markerEmpty st sid) :
    markerEmpty
      (chat st env (some sid) provider model msgText run mid emid).state sid
    ∧ (∀ prov mdl p, provider = some prov → model = some mdl →
        ¬(sid = "" ∨ sid ∉ st.chat_sessions) →
        (dictLookup st.active_connections sid).isSome →
        ¬(prov = "" ∨ mdl = "") →
        createProvider env prov mdl = Except.ok p →
        (chat st env (some sid) provider model msgText run mid
            emid).markerWrites.head? = some (some p)
        ∧ (∀ w ∈ (chat st env (some sid) provider model msgText run mid
            emid).markerWrites.tail, w = none)
        ∧ dictLookup (chat st env (some sid) provider model msgText run mid
            emid).state.active_requests sid = some none) := by
  constructor
  · by_cases h1 : sid = "" ∨ sid ∉ st.chat_sessions
    · simpa [chat, h1] using hempty
    · cases hconn : dictLookup st.active_connections sid with
      | none => simpa [chat, h1, hconn] using hempty
      | some x =>
        cases provider with
        | none => simpa [chat, h1, hconn] using hempty
        | some prov =>
          cases model with
          | none => simpa [chat, h1, hconn] using hempty
          | some mdl =>
            by_cases h2 : prov = "" ∨ mdl = ""
            · simpa [chat, h1, hconn, h2] using hempty
            · cases hp : createProvider env prov mdl with
              | error e =>
                right
                simp only [chat, h1, hconn, h2, hp]
                simpa using dictLookup_dictInsert_self
                  st.active_requests sid none
              | ok p =>
                right
                rw [chat_happy st env sid prov mdl msgText run mid emid p h1
                  (by simp [hconn]) h2 hp]
                exact (chatOk_marker st sid p msgText run mid emid).1
  · intro prov mdl p hpv hmd h1 hconn h2 hp
    subst hpv
    subst hmd
    rw [chat_happy st env sid prov mdl msgText run mid emid p h1 hconn h2 hp]
    exact ⟨(chatOk_marker st sid p msgText run mid emid).2.1,
      (chatOk_marker st sid p msgText run mid emid).2.2,
      (chatOk_marker st sid p msgText run mid emid).1⟩

/-- C5 witness. -/
theorem chat_marker_set_and_cleared_witness :
    markerEmpty
      (chat ⟨["s"], [("s", 1)], []⟩ ⟨true, true, true⟩ (some "s")
        (some "ollama") (some "m") "hi" (RunResult.plain "a") "m1"
        "e1").state "s"
    ∧ (∀ prov mdl p, (some "ollama" : Option String) = some prov →
        (some "m" : Option String) = some mdl →
        ¬(("s" : String) = "" ∨
          "s" ∉ (⟨["s"], [("s", 1)], []⟩ : ChatState).chat_sessions) →
        (dictLookup (⟨["s"], [("s", 1)], []⟩ :
          ChatState).active_connections "s").isSome →
        ¬(prov = "" ∨ mdl = "") →
        createProvider ⟨true, true, true⟩ prov mdl = Except.ok p →
        (chat ⟨["s"], [("s", 1)], []⟩ ⟨true, true, true⟩ (some "s")
            (some "ollama") (some "m") "hi" (RunResult.plain "a") "m1"
            "e1").markerWrites.head? = some (some p)
        ∧ (∀ w ∈ (chat ⟨["s"], [("s", 1)], []⟩ ⟨true, true, true⟩ (some "s")
            (some "ollama") (some "m") "hi" (RunResult.plain "a") "m1"
            "e1").markerWrites.tail, w = none)
        ∧ dictLookup (chat ⟨["s"], [("s", 1)], []⟩ ⟨true, true, true⟩
            (some "s") (some "ollama") (some "m") "hi"
            (RunResult.plain "a") "m1"
            "e1").state.active_requests "s" = some none) :=
  chat_marker_set_and_cleared ⟨["s"], [("s", 1)], []⟩ ⟨true, true, true⟩
    "s" (some "ollama") (some "m") "hi" (RunResult.plain "a") "m1" "e1"
    (Or.inl rfl)

/-! ## Claim C1: no single-in-flight enforcement -/

/-- C1 counterexample: invoked for a session whose Active Request Marker
is non-empty (an Ollama request in flight), the chat endpoint does not
fail fast with a `SessionBusy` rejection — it answers
`{"status": "success"}` and overwrites the in-flight marker with the new
provider handle. -/
theorem chat_busy_not_rejected_cex :
    (chat ⟨["s"], [("s", 1)], [("s", some (Provider.ollama "x"))]⟩
        ⟨true, true, true⟩ (some "s") (some "ollama") (some "m") "hi"
        (RunResult.plain "ans") "m1" "e1").response = ChatResponse.success
    ∧ (chat ⟨["s"], [("s", 1)], [("s", some (Provider.ollama "x"))]⟩
        ⟨true, true, true⟩ (some "s") (some "ollama") (some "m") "hi"
        (RunResult.plain "ans") "m1" "e1").markerWrites =
      [some (Provider.ollama "m"), none] := by
  constructor <;> decide

/-- C1 (amended): the chat endpoint performs no busy check — invoked for
a session whose Active Request Marker is non-empty, a second request is
processed exactly like a first one: it is not rejected, and its first
action on the marker overwrites the in-flight handle with the newly
constructed provider. -/
theorem chat_busy_overwrites_marker (st : ChatState) (env : Env)
    (sid prov mdl msgText ans mid emid : String) (p q : Provider)
    (_hbusy : dictLookup st.active_requests sid = some (some q))
    (hsid : ¬(sid = "" ∨ sid ∉ st.chat_sessions))
    (hconn : (dictLookup st.active_connections sid).isSome)
    (hpm : ¬(prov = "" ∨ mdl = ""))
    (hp : createProvider env prov mdl = Except.ok p) :
    (chat st env (some sid) (some prov) (some mdl) msgText
        (RunResult.plain ans) mid emid).response = ChatResponse.success
    ∧ (chat st env (some sid) (some prov) (some mdl) msgText
        (RunResult.plain ans) mid emid).markerWrites.head? =
      some (some p) := by
  rw [chat_happy st env sid prov mdl msgText (RunResult.plain ans) mid emid
    p hsid hconn hpm hp]
  exact ⟨rfl, rfl⟩

/-- C1 witness for the amended claim. -/
theorem chat_busy_overwrites_marker_witness :
    (chat ⟨["s"], [("s", 1)], [("s", some (Provider.ollama "x"))]⟩
        ⟨true, true, true⟩ (some "s") (some "ollama") (some "m") "hi"
        (RunResult.plain "ans") "m1" "e1").response = ChatResponse.success
    ∧ (chat ⟨["s"], [("s", 1)], [("s", some (Provider.ollama "x"))]⟩
        ⟨true, true, true⟩ (some "s") (some "ollama") (some "m") "hi"
        (RunResult.plain "ans") "m1" "e1").markerWrites.head? =
      some (some (Provider.ollama "m")) :=
  chat_busy_overwrites_marker
    ⟨["s"], [("s", 1)], [("s", some (Provider.ollama "x"))]⟩
    ⟨true, true, true⟩ "s" "ollama" "m" "hi" "ans" "m1" "e1"
    (Provider.ollama "m") (Provider.ollama "x") rfl (by decide)
    (by decide) (by decide) rfl

/-! ## Claim C6: cancellation -/

/-- C6: cancelling an idle session (empty or absent marker) changes
nothing and still answers success; `cancel_request` always leaves the
handle slot empty; with an attached handle it closes exactly that handle
and clears the slot, and with no handle it changes nothing. -/
theorem cancel_idle_noop_and_cancel_request_clears
    (requests : List (String × Option Provider)) (sess : Bool)
    (adapter ps : ProviderState) (sid : String) (h : Nat)
    (hidle : dictLookup requests sid = none ∨
      dictLookup requests sid = some none) :
    (cancel_chat requests sess adapter sid =
      (requests, adapter, ChatResponse.success))
    ∧ ((cancel_request ps).current_request = none)
    ∧ (ps.current_request = some h →
        cancel_request ps = ⟨none, ps.closed ++ [h]⟩)
    ∧ (ps.current_request = none → cancel_request ps = ps) := by
  refine ⟨?_, ?_, ?_, ?_⟩
  · rcases hidle with h1 | h1 <;> simp [cancel_chat, h1]
  · cases hcr : ps.current_request <;> simp [cancel_request, hcr]
  · intro hcr; simp [cancel_request, hcr]
  · intro hcr; simp [cancel_request, hcr]

/-- C6 witness. -/
theorem cancel_idle_noop_witness :
    (cancel_chat [("other", some (Provider.ollama "x"))] true ⟨some 5, []⟩
        "s" = ([("other", some (Provider.ollama "x"))], ⟨some 5, []⟩,
        ChatResponse.success))
    ∧ ((cancel_request ⟨some 7, [3]⟩).current_request = none)
    ∧ ((⟨some 7, [3]⟩ : ProviderState).current_request = some 7 →
        cancel_request ⟨some 7, [3]⟩ = ⟨none, [3] ++ [7]⟩)
    ∧ ((⟨some 7, [3]⟩ : ProviderState).current_request = none →
        cancel_request ⟨some 7, [3]⟩ = ⟨some 7, [3]⟩) :=
  cancel_idle_noop_and_cancel_request_clears
    [("other", some (Provider.ollama "x"))] true ⟨some 5, []⟩ ⟨some 7, [3]⟩
    "s" 7 (Or.inl (by decide))

/-! ## Claim C7: errors are returned, never propagated -/

/-- C7: `process_request` returns normally on every outcome of the agent
run — the agent's result, or the structured
`{'error': True, 'message': ...}` value for a raised exception — and an
exception raised while the chat endpoint drains the agent loop's stream
is surfaced as an error response plus a structured error event over the
delivery channel, not an unhandled crash. -/
theorem process_request_never_raises {P α : Type} (m : AgentManager P)
    (run : CodeAgent P → PyResult α) (e : String)
    (st : ChatState) (env : Env) (sid prov mdl msgText : String)
    (chunks : List Chunk) (mid emid : String) (p : Provider)
    (hsid : ¬(sid = "" ∨ sid ∉ st.chat_sessions))
    (hconn : (dictLookup st.active_connections sid).isSome)
    (hpm : ¬(prov = "" ∨ mdl = ""))
    (hp : createProvider env prov mdl = Except.ok p) :
    ((∃ a, m.process_request run = ProcessResult.result a) ∨
      (∃ msg, m.process_request run = ProcessResult.errorDict msg))
    ∧ (m.process_request (fun _ => (PyResult.exn e : PyResult α)) =
        ProcessResult.errorDict ("Error processing request: " ++ e))
    ∧ ((chat st env (some sid) (some prov) (some mdl) msgText
          (RunResult.stream chunks (some e)) mid emid).response =
        ChatResponse.error e)
    ∧ (∃ evs, (chat st env (some sid) (some prov) (some mdl) msgText
          (RunResult.stream chunks (some e)) mid emid).events =
        evs ++ [Event.message ("error-" ++ emid) "assistant"
          ("Error: " ++ e) none]) := by
  refine ⟨?_, rfl, ?_, ?_⟩
  · cases hr : run m.agent with
    | ok a =>
        exact Or.inl ⟨a, by simp [AgentManager.process_request, hr]⟩
    | exn msg =>
        exact Or.inr ⟨"Error processing request: " ++ msg,
          by simp [AgentManager.process_request, hr]⟩
  · rw [chat_happy st env sid prov mdl msgText
      (RunResult.stream chunks (some e)) mid emid p hsid hconn hpm hp]
    rfl
  · rw [chat_happy st env sid prov mdl msgText
      (RunResult.stream chunks (some e)) mid emid p hsid hconn hpm hp]
    refine ⟨[Event.thinking true,
      Event.message ("user-" ++ mid) "user" msgText none] ++
      (streamFold mid chunks).1 ++
      [Event.thinking false, Event.thinking false], ?_⟩
    simp [chatOk]

/-- C7 witness. -/
theorem process_request_never_raises_witness :
    ((∃ a, (mkAgentManager (0 : Nat)).process_request
        (fun _ => PyResult.ok "done") = ProcessResult.result a) ∨
      (∃ msg, (mkAgentManager (0 : Nat)).process_request
        (fun _ => PyResult.ok "done") = ProcessResult.errorDict msg))
    ∧ ((mkAgentManager (0 : Nat)).process_request
        (fun _ => (PyResult.exn "boom" : PyResult String)) =
        ProcessResult.errorDict ("Error processing request: " ++ "boom"))
    ∧ ((chat ⟨["s"], [("s", 1)], []⟩ ⟨true, true, true⟩ (some "s")
          (some "ollama") (some "m") "hi"
          (RunResult.stream [Chunk.str "He"] (some "boom")) "m1"
          "e1").response = ChatResponse.error "boom")
    ∧ (∃ evs, (chat ⟨["s"], [("s", 1)], []⟩ ⟨true, true, true⟩ (some "s")
          (some "ollama") (some "m") "hi"
          (RunResult.stream [Chunk.str "He"] (some "boom")) "m1"
          "e1").events =
        evs ++ [Event.message ("error-" ++ "e1") "assistant"
          ("Error: " ++ "boom") none]) :=
  process_request_never_raises (mkAgentManager (0 : Nat))
    (fun _ => PyResult.ok "done") "boom" ⟨["s"], [("s", 1)], []⟩
    ⟨true, true, true⟩ "s" "ollama" "m" "hi" [Chunk.str "He"] "m1" "e1"
    (Provider.ollama "m") (by decide) (by decide) (by decide) rfl

/-! ## Claim C8: the streaming delivery scenario -/

/-- C8: when the agent loop yields the chunks `["Hel", "lo"]` and
terminates normally, the delivery channel receives exactly two
`is_streaming: true` assistant message events with cumulative contents
`"Hel"` then `"Hello"`, followed by one `is_streaming: false` assistant
message event carrying `"Hello"`. -/
theorem streaming_delivery_scenario :
    assistantEvents (chat ⟨["s"], [("s", 1)], []⟩ ⟨true, true, true⟩
        (some "s") (some "ollama") (some "m") "hi"
        (RunResult.stream [Chunk.str "Hel", Chunk.str "lo"] none) "m1"
        "e1").events =
      [Event.message "assistant-m1" "assistant" "Hel" (some true),
       Event.message "assistant-m1" "assistant" "Hello" (some true),
       Event.message "assistant-m1" "assistant" "Hello" (some false)] := by
  decide

/-! ## Claim C9: transport binding -/

/-- C9: binding a new transport for a session id closes the previously
bound transport and replaces it — key uniqueness is preserved, so at most
one transport is bound per session id — and a broadcast for that session
afterwards targets exactly the newly bound transport. -/
theorem transport_bind_replaces_and_send_targets_new (st : WsState)
    (sid : String) (ws old : Nat)
    (hnd : keysNodup st.active_connections)
    (hold : dictLookup st.active_connections sid = some old) :
    (broadcast_target (websocket_bind st sid ws) sid = some ws)
    ∧ ((websocket_bind st sid ws).closed = st.closed ++ [old])
    ∧ keysNodup (websocket_bind st sid ws).active_connections := by
  refine ⟨?_, ?_, ?_⟩
  · simp [broadcast_target, websocket_bind, dictLookup_dictInsert_self]
  · simp [websocket_bind, hold]
  · exact keysNodup_dictInsert st.active_connections sid ws hnd

/-- C9 witness. -/
theorem transport_bind_replaces_witness :
    (broadcast_target (websocket_bind ⟨[("s", 1)], []⟩ "s" 2) "s" = some 2)
    ∧ ((websocket_bind ⟨[("s", 1)], []⟩ "s" 2).closed = [] ++ [1])
    ∧ keysNodup (websocket_bind ⟨[("s", 1)], []⟩ "s" 2).active_connections :=
  transport_bind_replaces_and_send_targets_new ⟨[("s", 1)], []⟩ "s" 2 1
    (by simp [keysNodup]) rfl

end AgentX
